import Mathlib

/-!
# Airfoil lift models: Bernoulli pressure difference and lift equation

A shallow embedding of the two programs of the repository,
`src/Bernoulli/src/bernoulli.c` and `src/Plane_Method/src/plane_method.c`.

* The arithmetic of `main` is embedded over an arbitrary linearly ordered field `K`
  (the C `double` read as an exact number): the definitions run on `ℚ` and the
  theorems hold on `ℝ` as well.
* `load_values` is embedded as the record of distribution-constructor calls it makes,
  with the literal parameters and sample tables of the source as rationals.
* What a program prints is a list of `Printed` lines, in the order of the `printf` calls.
-/

/-- One line written by `printf`: either a fixed text, or a label followed by a number
(the `%lf` conversion of the format string). The trailing newline is left out. -/
inductive Printed (K : Type) where
  | text (s : String)
  | value (label : String) (x : K)
deriving DecidableEq

/-- One call of a distribution constructor of `uncertain.h`, with its arguments. -/
inductive DistCall where
  | gaussDist (mean stddev : ℚ)
  | uniformDist (low high : ℚ)
  | distFromSamples (samples : List ℚ) (count : ℕ)
deriving DecidableEq

/-- The failures of the distribution constructors. -/
inductive ConstructFailure where
  | invalidParameter
  | emptyInput
deriving DecidableEq

/-- Modelled from the spec: the parameter validation of the three constructors of the
external header `uncertain.h` (`Gaussian` fails with `InvalidParameter` if stddev < 0,
`Uniform` fails with `InvalidParameter` if low > high, `FromSamples` fails with
`EmptyInput` if the sample set is empty). -/
def DistCall.validate : DistCall → Except ConstructFailure Unit
  | .gaussDist _ stddev => if stddev < 0 then .error .invalidParameter else .ok ()
  | .uniformDist low high => if low > high then .error .invalidParameter else .ok ()
  | .distFromSamples samples _ => if samples.isEmpty then .error .emptyInput else .ok ()

/-- The point value that stands for a distribution when every input is replaced by its
mean: a Gaussian by its mean, a uniform by the midpoint, a sample table by the
arithmetic mean of its first `count` entries. -/
def DistCall.nominal : DistCall → ℚ
  | .gaussDist mean _ => mean
  | .uniformDist low high => (low + high) / 2
  | .distFromSamples samples count => (samples.take count).sum / count

/-- The validity condition of a constructor call: a Gaussian has stddev >= 0, a uniform has
low <= high, a sample table is non-empty and comes with its number of entries. -/
def DistCall.wellFormed : DistCall → Prop
  | .gaussDist _ stddev => 0 ≤ stddev
  | .uniformDist low high => low ≤ high
  | .distFromSamples samples count => samples ≠ [] ∧ count = samples.length

/-- The three-sigma interval `[mean - 3*stddev, mean + 3*stddev]` of a Gaussian call lies in
`[lo, hi]`; no other call has such an interval. -/
def DistCall.threeSigmaWithin : DistCall → ℚ → ℚ → Prop
  | .gaussDist mean stddev, lo, hi => lo ≤ mean - 3 * stddev ∧ mean + 3 * stddev ≤ hi
  | .uniformDist _ _, _, _ => False
  | .distFromSamples _ _, _, _ => False

/-- The C expression `sizeof(double)`. -/
def sizeof_double : ℕ := 8

/-- The C expression `sizeof(table)` for an array of `double`. -/
def sizeof_table (table : List ℚ) : ℕ := table.length * sizeof_double

/-- The C function `pow` at the exponent `(double)2` used by both programs. -/
def pow {K : Type} [LinearOrderedField K] (x : K) (k : ℕ) : K := x ^ k

namespace Bernoulli

/-- Line 34: `static const double g = 9.80665;` -/
def g {K : Type} [LinearOrderedField K] : K := 9.80665

/-- Lines 38-65: the table `empirical_dist_area`. -/
def empirical_dist_area : List ℚ :=
  [51.18, 54.54, 77.3, 91.04, 92.97, 92.97, 93.5, 112.3, 122.4, 124.6, 157.9, 185.25,
   219, 260, 271.9, 283.3, 283.4, 338.9, 363.1, 367.7, 427.8, 437.3, 511, 525, 543, 817]

/-- The six out-parameters of `load_values`. -/
structure Inputs (α : Type) where
  rho : α
  v1 : α
  v2 : α
  h2_h1_airfoil_thickness : α
  A : α
  m : α

/-- Lines 67-89: the constructor call behind each out-parameter of `load_values`. -/
def load_values : Inputs DistCall where
  rho := .gaussDist 0.597 0.199
  v1 := .gaussDist 132.5 44.16666
  v2 := .gaussDist 165 55
  h2_h1_airfoil_thickness := .uniformDist 0.84 1.8
  A := .distFromSamples empirical_dist_area (sizeof_table empirical_dist_area / sizeof_double)
  m := .uniformDist 85000 220100

/-- The constructor calls of `load_values`, in program order. -/
def load_values_calls : List DistCall :=
  [load_values.rho, load_values.v1, load_values.v2, load_values.h2_h1_airfoil_thickness,
   load_values.A, load_values.m]

/-- The lines printed by `load_values` for the values it stored. -/
def load_values_printed {K : Type} (x : Inputs K) : List (Printed K) :=
  [.value "rho (kg/m³) = " x.rho,
   .value "v1 (m/s) = " x.v1,
   .value "v2 (m/s) = " x.v2,
   .value "h2-h1 (m) = " x.h2_h1_airfoil_thickness,
   .value "A (m^2) = " x.A,
   .value "m (kg) = " x.m]

/-- Line 103: the pressure difference between both surfaces of one airfoil. -/
def P1_P2_difference {K : Type} [LinearOrderedField K] (x : Inputs K) : K :=
  (x.rho / 2) * (pow x.v2 2 - pow x.v1 2) + (x.rho * g) * x.h2_h1_airfoil_thickness

/-- Line 107: the lift force on one airfoil. -/
def F_lift {K : Type} [LinearOrderedField K] (x : Inputs K) : K :=
  x.A * P1_P2_difference x

/-- Line 111: the lift of both airfoils less the weight of the airplane. -/
def F_lift_adjusted {K : Type} [LinearOrderedField K] (F_lift m : K) : K :=
  (2 * F_lift) - (m * g)

/-- Lines 113-124: the line printed by the `if` / `else if` / `else` chain. -/
def elevation_message {K : Type} [LinearOrderedField K] (F_lift_adjusted : K) : String :=
  if F_lift_adjusted > 0 then "Elevation level is increasing"
  else if F_lift_adjusted < 0 then "Elevation level is decreasing"
  else "Airplane is not changing elevation level"

/-- Lines 110-126 of `main`: what is printed from `F_lift` and `m` on. -/
def main_decision {K : Type} [LinearOrderedField K] (F_lift m : K) : List (Printed K) :=
  [.text (elevation_message (F_lift_adjusted F_lift m)),
   .value "F_lift subtracting the weight of the airplane (N) = " (F_lift_adjusted F_lift m)]

/-- Lines 93-129: everything `main` prints, given the values `load_values` stored. -/
def main {K : Type} [LinearOrderedField K] (x : Inputs K) : List (Printed K) :=
  [.text "Model using bernoulli's principle"]
    ++ load_values_printed x
    ++ [.value "P1 - P2 (N/m^2) = " (P1_P2_difference x),
        .value "F_lift (N) = " (F_lift x)]
    ++ main_decision (F_lift x) x.m

/-- Apply `f` to each of the six values. -/
def Inputs.map {α β : Type} (f : α → β) (x : Inputs α) : Inputs β where
  rho := f x.rho
  v1 := f x.v1
  v2 := f x.v2
  h2_h1_airfoil_thickness := f x.h2_h1_airfoil_thickness
  A := f x.A
  m := f x.m

/-- The inputs of `main` when every distribution of `load_values` is replaced by its mean. -/
def nominal_inputs : Inputs ℚ := load_values.map DistCall.nominal

end Bernoulli

namespace PlaneMethod

/-- Line 31: `static const double g = 9.80665;` -/
def g {K : Type} [LinearOrderedField K] : K := 9.80665

/-- Lines 35-72: the table `empirical_dist_Cl`. -/
def empirical_dist_Cl : List ℚ :=
  [1.2, 1.8, 1.4, 2.0, 1.6, 2.5, 1.5, 1.9, 1.7, 2.1, 1.9, 3.3,
   1.4, 1.8, 1.6, 2.2, 1.6, 2.6, 1.2, 1.8, 1.6, 2.2, 1.8, 3.2,
   1.2, 1.8, 1.4, 2.0, 1.6, 2.2, 1.2, 1.8, 1.4, 2.0, 1.6, 2.6]

/-- Lines 74-101: the table `empirical_dist_area`. -/
def empirical_dist_area : List ℚ :=
  [51.18, 54.54, 77.3, 91.04, 92.97, 92.97, 93.5, 112.3, 122.4, 124.6, 157.9, 185.25,
   219, 260, 271.9, 283.3, 283.4, 338.9, 363.1, 367.7, 427.8, 437.3, 511, 525, 543, 817]

/-- The five out-parameters of `load_values`. -/
structure Inputs (α : Type) where
  rho : α
  v : α
  Cl : α
  A : α
  m : α

/-- Lines 103-121: the constructor call behind each out-parameter of `load_values`. -/
def load_values : Inputs DistCall where
  rho := .gaussDist 0.597 0.199
  v := .gaussDist 165 55
  Cl := .distFromSamples empirical_dist_Cl (sizeof_table empirical_dist_Cl / sizeof_double)
  A := .distFromSamples empirical_dist_area (sizeof_table empirical_dist_area / sizeof_double)
  m := .uniformDist 85000 220100

/-- The constructor calls of `load_values`, in program order. -/
def load_values_calls : List DistCall :=
  [load_values.rho, load_values.v, load_values.Cl, load_values.A, load_values.m]

/-- The lines printed by `load_values` for the values it stored. -/
def load_values_printed {K : Type} (x : Inputs K) : List (Printed K) :=
  [.value "rho (kg/m³) = " x.rho,
   .value "v (m/s) = " x.v,
   .value "Cl = " x.Cl,
   .value "A (m^2) = " x.A,
   .value "m (kg) = " x.m]

/-- Line 135: the lift force on one airfoil. -/
def F_lift {K : Type} [LinearOrderedField K] (x : Inputs K) : K :=
  0.5 * x.Cl * x.rho * pow x.v 2 * x.A

/-- Line 139: the lift of both airfoils less the weight of the airplane. -/
def F_lift_adjusted {K : Type} [LinearOrderedField K] (F_lift m : K) : K :=
  (2 * F_lift) - (m * g)

/-- Lines 141-152: the line printed by the `if` / `else if` / `else` chain. -/
def elevation_message {K : Type} [LinearOrderedField K] (F_lift_adjusted : K) : String :=
  if F_lift_adjusted > 0 then "Elevation level is increasing"
  else if F_lift_adjusted < 0 then "Elevation level is decreasing"
  else "Airplane is not changing elevation level"

/-- Lines 138-154 of `main`: what is printed from `F_lift` and `m` on. -/
def main_decision {K : Type} [LinearOrderedField K] (F_lift m : K) : List (Printed K) :=
  [.text (elevation_message (F_lift_adjusted F_lift m)),
   .value "F_lift subtracting the weight of the airplane (N) = " (F_lift_adjusted F_lift m)]

/-- Lines 125-157: everything `main` prints, given the values `load_values` stored. -/
def main {K : Type} [LinearOrderedField K] (x : Inputs K) : List (Printed K) :=
  [.text "Model using Plane Method (Lift equation)"]
    ++ load_values_printed x
    ++ [.value "F_lift (N) = " (F_lift x)]
    ++ main_decision (F_lift x) x.m

/-- Apply `f` to each of the five values. -/
def Inputs.map {α β : Type} (f : α → β) (x : Inputs α) : Inputs β where
  rho := f x.rho
  v := f x.v
  Cl := f x.Cl
  A := f x.A
  m := f x.m

/-- The inputs of `main` when every distribution of `load_values` is replaced by its mean. -/
def nominal_inputs : Inputs ℚ := load_values.map DistCall.nominal

end PlaneMethod

/-- The three elevation-trend messages of the two programs. -/
def trend_messages : List String :=
  ["Elevation level is increasing", "Elevation level is decreasing",
   "Airplane is not changing elevation level"]

/-- The elevation-trend messages among the lines of an output, in order of printing. -/
def printed_trends {K : Type} : List (Printed K) → List String
  | [] => []
  | .text s :: rest => if s ∈ trend_messages then s :: printed_trends rest else printed_trends rest
  | .value _ _ :: rest => printed_trends rest

/-! ## The equations of the header comments -/

/-- C1: for all inputs the pressure difference computed (and printed) by the Bernoulli
program is (rho/2)*(v2^2 - v1^2) + (rho*g)*h with g = 9.80665, and F_lift is A times it. -/
theorem bernoulli_header_equations {K : Type} [LinearOrderedField K] (x : Bernoulli.Inputs K) :
    Bernoulli.P1_P2_difference x
        = (x.rho / 2) * (x.v2 ^ 2 - x.v1 ^ 2) + (x.rho * 9.80665) * x.h2_h1_airfoil_thickness
      ∧ Bernoulli.F_lift x
        = x.A * ((x.rho / 2) * (x.v2 ^ 2 - x.v1 ^ 2)
            + (x.rho * 9.80665) * x.h2_h1_airfoil_thickness)
      ∧ Printed.value "P1 - P2 (N/m^2) = "
          ((x.rho / 2) * (x.v2 ^ 2 - x.v1 ^ 2) + (x.rho * 9.80665) * x.h2_h1_airfoil_thickness)
          ∈ Bernoulli.main x
      ∧ Printed.value "F_lift (N) = "
          (x.A * ((x.rho / 2) * (x.v2 ^ 2 - x.v1 ^ 2)
            + (x.rho * 9.80665) * x.h2_h1_airfoil_thickness))
          ∈ Bernoulli.main x := by
  have hP : Bernoulli.P1_P2_difference x
      = (x.rho / 2) * (x.v2 ^ 2 - x.v1 ^ 2) + (x.rho * 9.80665) * x.h2_h1_airfoil_thickness := by
    simp only [Bernoulli.P1_P2_difference, pow, Bernoulli.g]
  have hF : Bernoulli.F_lift x
      = x.A * ((x.rho / 2) * (x.v2 ^ 2 - x.v1 ^ 2)
          + (x.rho * 9.80665) * x.h2_h1_airfoil_thickness) := by
    rw [Bernoulli.F_lift, hP]
  refine ⟨hP, hF, ?_, ?_⟩
  · rw [← hP]; simp [Bernoulli.main]
  · rw [← hF]; simp [Bernoulli.main]

/-- C2: for all inputs the lift force computed (and printed) by the Plane Method program
is 0.5 * Cl * rho * v^2 * A. -/
theorem plane_method_header_equation {K : Type} [LinearOrderedField K]
    (x : PlaneMethod.Inputs K) :
    PlaneMethod.F_lift x = 0.5 * x.Cl * x.rho * x.v ^ 2 * x.A
      ∧ Printed.value "F_lift (N) = " (0.5 * x.Cl * x.rho * x.v ^ 2 * x.A)
          ∈ PlaneMethod.main x := by
  have hF : PlaneMethod.F_lift x = 0.5 * x.Cl * x.rho * x.v ^ 2 * x.A := by
    simp only [PlaneMethod.F_lift, pow]
  refine ⟨hF, ?_⟩
  rw [← hF]; simp [PlaneMethod.main]

/-! ## The elevation-trend decision -/

/-- The Bernoulli program prints "increasing" exactly when `F_lift_adjusted` is positive. -/
lemma bernoulli_message_increasing_iff {K : Type} [LinearOrderedField K] (a : K) :
    Bernoulli.elevation_message a = "Elevation level is increasing" ↔ 0 < a := by
  unfold Bernoulli.elevation_message
  split_ifs with h1 h2
  · simpa using h1
  · simp only [gt_iff_lt] at h1; simp [h1]
  · simp only [gt_iff_lt] at h1; simp [h1]

/-- The message of the Bernoulli program is one of the three trend messages. -/
lemma bernoulli_message_mem_trend {K : Type} [LinearOrderedField K] (a : K) :
    Bernoulli.elevation_message a ∈ trend_messages := by
  unfold Bernoulli.elevation_message trend_messages
  split_ifs <;> simp

/-- The two programs have the same decision chain. -/
lemma elevation_message_agree {K : Type} [LinearOrderedField K] (a : K) :
    PlaneMethod.elevation_message a = Bernoulli.elevation_message a := rfl

/-- The two programs compute the same adjusted lift. -/
lemma F_lift_adjusted_agree {K : Type} [LinearOrderedField K] (F m : K) :
    PlaneMethod.F_lift_adjusted F m = Bernoulli.F_lift_adjusted F m := rfl

/-- The only trend message in the output of the Bernoulli `main` is the one of the chain. -/
lemma bernoulli_printed_trends_main {K : Type} [LinearOrderedField K] (x : Bernoulli.Inputs K) :
    printed_trends (Bernoulli.main x)
      = [Bernoulli.elevation_message (Bernoulli.F_lift_adjusted (Bernoulli.F_lift x) x.m)] := by
  have h := bernoulli_message_mem_trend (Bernoulli.F_lift_adjusted (Bernoulli.F_lift x) x.m)
  simp only [Bernoulli.main, Bernoulli.load_values_printed, Bernoulli.main_decision,
    List.cons_append, List.nil_append, printed_trends, h, if_true]
  simp [trend_messages]

/-- The only trend message in the output of the Plane Method `main` is the one of the chain. -/
lemma plane_method_printed_trends_main {K : Type} [LinearOrderedField K]
    (x : PlaneMethod.Inputs K) :
    printed_trends (PlaneMethod.main x)
      = [PlaneMethod.elevation_message
          (PlaneMethod.F_lift_adjusted (PlaneMethod.F_lift x) x.m)] := by
  have h := bernoulli_message_mem_trend (Bernoulli.F_lift_adjusted (PlaneMethod.F_lift x) x.m)
  rw [elevation_message_agree, F_lift_adjusted_agree]
  simp only [PlaneMethod.main, PlaneMethod.load_values_printed, PlaneMethod.main_decision,
    List.cons_append, List.nil_append, printed_trends, elevation_message_agree,
    F_lift_adjusted_agree, h, if_true]
  simp [trend_messages]

/-- C5: every constructor call of `load_values` in both programs passes the validation of
its constructor (no `InvalidParameter`, no `EmptyInput`): each Gaussian has stddev >= 0, each
uniform has low <= high, each sample table is non-empty and is passed with its number of
entries, 26 for the area tables and 36 for the lift-coefficient table. -/
theorem load_values_calls_valid :
    (∀ c ∈ Bernoulli.load_values_calls ++ PlaneMethod.load_values_calls,
        c.validate = .ok () ∧ c.wellFormed)
      ∧ Bernoulli.load_values.A = .distFromSamples Bernoulli.empirical_dist_area 26
      ∧ Bernoulli.empirical_dist_area.length = 26
      ∧ PlaneMethod.load_values.A = .distFromSamples PlaneMethod.empirical_dist_area 26
      ∧ PlaneMethod.empirical_dist_area.length = 26
      ∧ PlaneMethod.load_values.Cl = .distFromSamples PlaneMethod.empirical_dist_Cl 36
      ∧ PlaneMethod.empirical_dist_Cl.length = 36 := by
  refine ⟨?_, rfl, rfl, rfl, rfl, rfl, rfl⟩
  simp only [Bernoulli.load_values_calls, PlaneMethod.load_values_calls, List.cons_append,
    List.nil_append, List.forall_mem_cons, Bernoulli.load_values, PlaneMethod.load_values,
    DistCall.validate, DistCall.wellFormed]
  norm_num [sizeof_table, sizeof_double, Bernoulli.empirical_dist_area,
    PlaneMethod.empirical_dist_area, PlaneMethod.empirical_dist_Cl]
  simp

/-- C6: the thickness uniform has bounds (0.84, 1.8) and the mass uniform (85000, 220100);
every entry of the area table lies in [51.18, 817] and the table contains 51.18 and 817;
every entry of the lift-coefficient table lies in [1.2, 3.3] and the table contains 1.2
and 3.3. -/
theorem uniform_and_empirical_ranges :
    Bernoulli.load_values.h2_h1_airfoil_thickness = .uniformDist 0.84 1.8
      ∧ Bernoulli.load_values.m = .uniformDist 85000 220100
      ∧ PlaneMethod.load_values.m = .uniformDist 85000 220100
      ∧ ((∀ a ∈ Bernoulli.empirical_dist_area, 51.18 ≤ a ∧ a ≤ 817)
          ∧ 51.18 ∈ Bernoulli.empirical_dist_area ∧ 817 ∈ Bernoulli.empirical_dist_area)
      ∧ ((∀ a ∈ PlaneMethod.empirical_dist_area, 51.18 ≤ a ∧ a ≤ 817)
          ∧ 51.18 ∈ PlaneMethod.empirical_dist_area ∧ 817 ∈ PlaneMethod.empirical_dist_area)
      ∧ ((∀ c ∈ PlaneMethod.empirical_dist_Cl, 1.2 ≤ c ∧ c ≤ 3.3)
          ∧ 1.2 ∈ PlaneMethod.empirical_dist_Cl ∧ 3.3 ∈ PlaneMethod.empirical_dist_Cl) := by
  refine ⟨rfl, rfl, rfl, ⟨?_, ?_, ?_⟩, ⟨?_, ?_, ?_⟩, ⟨?_, ?_, ?_⟩⟩
  · simp only [Bernoulli.empirical_dist_area, List.forall_mem_cons]; norm_num
  · simp [Bernoulli.empirical_dist_area]
  · simp [Bernoulli.empirical_dist_area]
  · simp only [PlaneMethod.empirical_dist_area, List.forall_mem_cons]; norm_num
  · simp [PlaneMethod.empirical_dist_area]
  · simp [PlaneMethod.empirical_dist_area]
  · simp only [PlaneMethod.empirical_dist_Cl, List.forall_mem_cons]; norm_num
  · simp [PlaneMethod.empirical_dist_Cl]
  · simp [PlaneMethod.empirical_dist_Cl]

/-- C7, evaluated on the code: the three-sigma interval of the air-density Gaussian
(0.597, 0.199) of both programs starts at 0, below the documented lower bound 0.0316, so it
is not contained in the documented range [0.0316, 1.2256]; the velocity Gaussians v1, v2
and v do stay in their documented ranges [0, 265], [0, 330], [0, 330]; and the same stddev
around the midpoint 0.6286 of the documented range would stay in it. -/
theorem rho_three_sigma_leaves_documented_range :
    Bernoulli.load_values.rho = .gaussDist 0.597 0.199
      ∧ PlaneMethod.load_values.rho = .gaussDist 0.597 0.199
      ∧ ¬ Bernoulli.load_values.rho.threeSigmaWithin 0.0316 1.2256
      ∧ ¬ PlaneMethod.load_values.rho.threeSigmaWithin 0.0316 1.2256
      ∧ Bernoulli.load_values.rho.threeSigmaWithin 0 1.194
      ∧ Bernoulli.load_values.v1.threeSigmaWithin 0 265
      ∧ Bernoulli.load_values.v2.threeSigmaWithin 0 330
      ∧ PlaneMethod.load_values.v.threeSigmaWithin 0 330
      ∧ (DistCall.gaussDist 0.6286 0.199).threeSigmaWithin 0.0316 1.2256 := by
  refine ⟨rfl, rfl, ?_, ?_, ?_, ?_, ?_, ?_, ?_⟩ <;>
    norm_num [Bernoulli.load_values, PlaneMethod.load_values, DistCall.threeSigmaWithin]

/-! ## The two programs side by side -/

/-- C8: the two programs share their inputs and their decision: the same area table of 26
values, rho Gaussian(0.597, 0.199) and m Uniform(85000, 220100) in both, the Plane Method
velocity with the parameters (165, 55) of the Bernoulli v2, g = 9.80665 in both, and for
every F_lift and m the same F_lift_adjusted and the same printed lines. -/
theorem programs_share_inputs_and_decision {K : Type} [LinearOrderedField K] (F_lift m : K) :
    (PlaneMethod.empirical_dist_area = Bernoulli.empirical_dist_area
      ∧ Bernoulli.empirical_dist_area.length = 26
      ∧ PlaneMethod.load_values.A = Bernoulli.load_values.A)
    ∧ (Bernoulli.load_values.rho = .gaussDist 0.597 0.199
      ∧ PlaneMethod.load_values.rho = .gaussDist 0.597 0.199)
    ∧ (Bernoulli.load_values.m = .uniformDist 85000 220100
      ∧ PlaneMethod.load_values.m = .uniformDist 85000 220100)
    ∧ (Bernoulli.load_values.v2 = .gaussDist 165 55
      ∧ PlaneMethod.load_values.v = .gaussDist 165 55)
    ∧ ((Bernoulli.g : K) = 9.80665 ∧ (PlaneMethod.g : K) = 9.80665)
    ∧ PlaneMethod.F_lift_adjusted F_lift m = Bernoulli.F_lift_adjusted F_lift m
    ∧ PlaneMethod.elevation_message (PlaneMethod.F_lift_adjusted F_lift m)
        = Bernoulli.elevation_message (Bernoulli.F_lift_adjusted F_lift m)
    ∧ PlaneMethod.main_decision F_lift m = Bernoulli.main_decision F_lift m
    ∧ printed_trends (PlaneMethod.main_decision F_lift m)
        = printed_trends (Bernoulli.main_decision F_lift m) :=
  ⟨⟨rfl, rfl, rfl⟩, ⟨rfl, rfl⟩, ⟨rfl, rfl⟩, ⟨rfl, rfl⟩, ⟨rfl, rfl⟩, rfl, rfl, rfl, rfl⟩

/-! ## Nominal point evaluation -/

/-- The nominal inputs of the Bernoulli program, evaluated. -/
lemma bernoulli_nominal_inputs_eq :
    Bernoulli.nominal_inputs
      = { rho := 0.597, v1 := 132.5, v2 := 165, h2_h1_airfoil_thickness := 1.32,
          A := 6904.35 / 26, m := 152550 } := by
  norm_num [Bernoulli.nominal_inputs, Bernoulli.Inputs.map, Bernoulli.load_values,
    DistCall.nominal, sizeof_table, sizeof_double, Bernoulli.empirical_dist_area]

/-- The nominal inputs of the Plane Method program, evaluated. -/
lemma plane_method_nominal_inputs_eq :
    PlaneMethod.nominal_inputs
      = { rho := 0.597, v := 165, Cl := 66.7 / 36, A := 6904.35 / 26, m := 152550 } := by
  norm_num [PlaneMethod.nominal_inputs, PlaneMethod.Inputs.map, PlaneMethod.load_values,
    DistCall.nominal, sizeof_table, sizeof_double, PlaneMethod.empirical_dist_area,
    PlaneMethod.empirical_dist_Cl]

/-- C9: with every input replaced by the mean of its distribution (rho = 0.597, h = 1.32,
m = 152550, A = mean of the 26 area samples; v1 = 132.5 and v2 = 165 in the Bernoulli
program; v = 165 and Cl = mean of the 36 lift-coefficient samples in the Plane Method
program) both programs obtain F_lift_adjusted > 0 and print "Elevation level is
increasing". -/
theorem nominal_point_elevation_increasing :
    (Bernoulli.nominal_inputs
        = { rho := 0.597, v1 := 132.5, v2 := 165, h2_h1_airfoil_thickness := 1.32,
            A := Bernoulli.empirical_dist_area.sum / 26, m := 152550 }
      ∧ 0 < Bernoulli.F_lift_adjusted (Bernoulli.F_lift Bernoulli.nominal_inputs)
            Bernoulli.nominal_inputs.m
      ∧ printed_trends (Bernoulli.main Bernoulli.nominal_inputs)
          = ["Elevation level is increasing"])
    ∧ (PlaneMethod.nominal_inputs
        = { rho := 0.597, v := 165, Cl := PlaneMethod.empirical_dist_Cl.sum / 36,
            A := PlaneMethod.empirical_dist_area.sum / 26, m := 152550 }
      ∧ 0 < PlaneMethod.F_lift_adjusted (PlaneMethod.F_lift PlaneMethod.nominal_inputs)
            PlaneMethod.nominal_inputs.m
      ∧ printed_trends (PlaneMethod.main PlaneMethod.nominal_inputs)
          = ["Elevation level is increasing"]) := by
  have hB : 0 < Bernoulli.F_lift_adjusted (Bernoulli.F_lift Bernoulli.nominal_inputs)
      Bernoulli.nominal_inputs.m := by
    rw [bernoulli_nominal_inputs_eq]
    norm_num [Bernoulli.F_lift_adjusted, Bernoulli.F_lift, Bernoulli.P1_P2_difference,
      Bernoulli.g, pow]
  have hP : 0 < Bernoulli.F_lift_adjusted (PlaneMethod.F_lift PlaneMethod.nominal_inputs)
      PlaneMethod.nominal_inputs.m := by
    rw [plane_method_nominal_inputs_eq]
    norm_num [Bernoulli.F_lift_adjusted, PlaneMethod.F_lift, Bernoulli.g, pow]
  refine ⟨⟨?_, hB, ?_⟩, ⟨?_, hP, ?_⟩⟩
  · rw [bernoulli_nominal_inputs_eq]; norm_num [Bernoulli.empirical_dist_area]
  · rw [bernoulli_printed_trends_main, List.singleton_inj, bernoulli_message_increasing_iff]
    exact hB
  · rw [plane_method_nominal_inputs_eq]
    norm_num [PlaneMethod.empirical_dist_area, PlaneMethod.empirical_dist_Cl]
  · rw [plane_method_printed_trends_main, elevation_message_agree, F_lift_adjusted_agree,
      List.singleton_inj, bernoulli_message_increasing_iff]
    exact hP
